import Mathlib

/-!
Shallow embedding of src/radiusauth/backends/radius.py (django-radius).

The file embeds, from the source:
  - the pyrad reply-code constants the module imports (packet codes of
    RFC 2865 as pyrad defines them);
  - rpartition, the Python string operation used at line 172;
  - RADIUSRealmBackend._parse_username (lines 167-175);
  - RADIUSBackend._perform_radius_auth (lines 71-101), with the outcome of
    client.SendPacket (an external network call) as a parameter;
  - RADIUSBackend.get_django_user (lines 112-127), with the Django user
    table modelled as a list of records;
  - the utf8_encode_args decorator (lines 18-23): it encodes every
    positional argument, the bound self included, so calling the decorated
    authenticate methods raises AttributeError (backend instances have no
    encode attribute);
  - both authenticate methods (lines 129-141 and 180-198), composed from
    the above, with Python attribute lookups that can fail made explicit:
    line 135 names get_server_from_settings, which RADIUSBackend does not
    define (the defined method, line 61, is _get_server_from_settings), and
    RADIUSRealmBackend inherits object, not RADIUSBackend, so the
    _get_server_from_settings call inside get_server (line 178) fails too;
  - the RADIUS password obfuscation performed by pyrad Packet.PwCrypt,
    which is an external dependency, modelled from the spec.
-/

/-- pyrad packet code constant: AccessRequest = 1. -/
def AccessRequest : Nat := 1

/-- pyrad packet code constant: AccessAccept = 2. -/
def AccessAccept : Nat := 2

/-- pyrad packet code constant: AccessReject = 3. -/
def AccessReject : Nat := 3

/-- REALM_SEPARATOR = the at sign (line 16). -/
def REALM_SEPARATOR : Char := '@'

/-- Python exceptions that the embedded code can raise or catch. `timeout`
stands for pyrad.client.Timeout; `ioError` for socket/OS errors; `otherExc`
for any other exception caught by the bare `except Exception` clause. -/
inductive PyExc
  | attributeError
  | timeout
  | ioError
  | otherExc
deriving DecidableEq

/-- Python str.rpartition with a one-character separator, on the character
list of the string: splits at the LAST occurrence of the separator into
(before, separator, after); when the separator does not occur, Python
returns two empty strings and the whole string in the third slot. -/
def rpartition (sep : Char) : List Char → List Char × List Char × List Char
  | [] => ([], [], [])
  | c :: rest =>
    let r := rpartition sep rest
    if r.2.1 ≠ [] then (c :: r.1, r.2.1, r.2.2)
    else if c = sep then ([], [sep], rest)
    else ([], [], c :: rest)

/-- RADIUSRealmBackend._parse_username (lines 167-175):
`user, _, realm = username.rpartition(REALM_SEPARATOR)`; when `user` is
falsy (the empty string) return `(username, None)`, else `(user, realm)`. -/
def _parse_username (username : List Char) : List Char × Option (List Char) :=
  let r := rpartition REALM_SEPARATOR username
  if r.1 = [] then (username, none) else (r.1, some r.2.2)

/-- Outcome of the external call `client.SendPacket(packet)` at line 79:
either a decoded reply carrying a code, or a raised exception. -/
inductive SendResult
  | reply (code : Nat)
  | raisesExc (e : PyExc)
deriving DecidableEq

/-- RADIUSBackend._perform_radius_auth (lines 71-101), as a function of the
SendPacket outcome. The try/except catches Timeout (lines 80-84) and then
every other Exception (lines 85-87), returning False for both; a reply with
code AccessReject returns False (lines 89-92), any code other than
AccessAccept returns False (lines 93-97), and AccessAccept returns True
(lines 99-101). The Except result type records that no exception escapes. -/
def _perform_radius_auth (sent : SendResult) : Except PyExc Bool :=
  match sent with
  | .raisesExc .timeout => .ok false
  | .raisesExc _ => .ok false
  | .reply code =>
    if code = AccessReject then .ok false
    else if code ≠ AccessAccept then .ok false
    else .ok true

/-- The Django settings the module reads (lines 65-69): RADIUS_SERVER,
RADIUS_PORT and RADIUS_SECRET. -/
structure Settings where
  radius_server : String
  radius_port : Nat
  radius_secret : String
deriving DecidableEq

/-- A RADIUS server as the module passes it around: the 3-tuple
(hostname, port, secret) of lines 65-69. -/
abbrev Server := String × Nat × String

/-- RADIUSBackend._get_server_from_settings (lines 61-69). -/
def _get_server_from_settings (st : Settings) : Server :=
  (st.radius_server, st.radius_port, st.radius_secret)

/-- A django.contrib.auth User record, reduced to the fields this module
touches: the username and the value last given to set_password (none when
set_password was never called). Hashing inside set_password is external to
the module and is not modelled. -/
structure DjangoUser where
  username : String
  password : Option String
deriving DecidableEq

/-- The Django user table, as the ordered list of saved records. -/
abbrev UserStore := List DjangoUser

/-- User.objects.get(username=...) (line 119): the first saved record with
the given username, or none (User.DoesNotExist). -/
def findUser (store : UserStore) (username : String) : Option DjangoUser :=
  store.find? (fun u => u.username == username)

/-- user.save() (line 125): update the record with this username, or insert
the record when the table has none. -/
def saveUser : UserStore → DjangoUser → UserStore
  | [], u => [u]
  | v :: rest, u =>
    if v.username == u.username then u :: rest else v :: saveUser rest u

/-- RADIUSBackend.get_django_user (lines 112-127): fetch the user with the
given username, or make a fresh unsaved one when the lookup raises
User.DoesNotExist; when a password is given, set_password and save it
regardless of which branch produced the record. Returns the record and the
table after the call. -/
def get_django_user (store : UserStore) (username : String)
    (password : Option String) : DjangoUser × UserStore :=
  let user : DjangoUser :=
    match findUser store username with
    | some u => u
    | none => { username := username, password := none }
  match password with
  | some p =>
    let user2 : DjangoUser := { user with password := some p }
    (user2, saveUser store user2)
  | none => (user, store)

/-- An Access-Request as this module builds one (lines 40-48 via
_radius_auth, lines 103-110): the packet code, the server the bound client
would send it to, the User-Name attribute value, and the plaintext password
handed to PwCrypt. -/
structure AuthRequest where
  code : Nat
  server : Server
  userName : String
  password : String
deriving DecidableEq

/-- The behaviour of the network during one authenticate call: what
client.SendPacket does with the request it is given. -/
abbrev SendBehavior := AuthRequest → SendResult

/-- A Python value as seen by the utf8_encode_args decorator: either a
string (which has an encode method) or a backend instance (which has not). -/
inductive PyVal
  | str (s : String)
  | backendInstance
deriving DecidableEq

/-- Python attribute lookup plus call of arg.encode(utf-8) (line 21):
unicode strings encode to their UTF-8 bytes (kept as the same string here,
since the rest of the model works on the decoded text), while a backend
instance has no encode attribute, so the lookup raises AttributeError. -/
def PyVal.encodeUtf8 : PyVal → Except PyExc PyVal
  | .str s => .ok (.str s)
  | .backendInstance => .error .attributeError

/-- The utf8_encode_args decorator (lines 18-23): encode every positional
argument, then call the wrapped function on the encoded list. Both
authenticate methods are called as bound methods, so the instance itself is
the first element of args and is encoded too. -/
def utf8_encode_args (args : List PyVal) : Except PyExc (List PyVal) :=
  args.mapM PyVal.encodeUtf8

/-- The names bound in the class body of RADIUSBackend (lines 25-151); a
Python attribute lookup on an instance succeeds exactly for these (plus
object builtins, none of which the module names). -/
def RADIUSBackend.methodNames : List String :=
  ["supports_anonymous_user", "supports_object_permissions",
   "_get_dictionary", "_get_auth_packet", "_get_client",
   "_get_server_from_settings", "_perform_radius_auth", "_radius_auth",
   "get_django_user", "authenticate", "get_user"]

/-- The names bound in the class body of RADIUSRealmBackend (lines
153-198). The class inherits object, not RADIUSBackend, so these are ALL
the attributes its instances have. -/
def RADIUSRealmBackend.methodNames : List String :=
  ["_parse_username", "get_server", "authenticate"]

/-- One authenticate call returns either a raised exception or
(the Django User or None, the user table afterwards); alongside it, the
list of Access-Requests handed to SendPacket during the call. -/
abbrev AuthOutcome := Except PyExc (Option DjangoUser × UserStore) × List AuthRequest

/-- Body of RADIUSBackend.authenticate (lines 134-141), before the
decorator. Line 135 evaluates self.get_server_from_settings(None): the
name is looked up in RADIUSBackend.methodNames and is absent (the defined
method, line 61, is _get_server_from_settings), so the call raises
AttributeError. The then-branch is unreachable; it embeds the remaining
lines 136-141 (through _radius_auth, lines 103-110, and
_perform_radius_auth) with _get_server_from_settings, the one
server-returning method the class does define, standing for the value the
failed lookup would have produced. -/
def radiusBackendAuthBody (st : Settings) (send : SendBehavior)
    (store : UserStore) (username password : String) : AuthOutcome :=
  if RADIUSBackend.methodNames.contains "get_server_from_settings" then
    let server := _get_server_from_settings st
    let req : AuthRequest :=
      { code := AccessRequest, server := server,
        userName := username, password := password }
    match _perform_radius_auth (send req) with
    | .error e => (.error e, [req])
    | .ok true =>
      let gu := get_django_user store username (some password)
      (.ok (some gu.1, gu.2), [req])
    | .ok false => (.ok (none, store), [req])
  else
    (.error .attributeError, [])

/-- RADIUSBackend.authenticate (lines 129-141) as callers call it: the
utf8_encode_args decorator runs first over [self, username, password]
(line 21 encodes every positional argument), and only if that succeeds
does the body run. encodeUtf8 is the identity on string values in this
model, so the body receives username and password unchanged. -/
def RADIUSBackend.authenticate (st : Settings) (send : SendBehavior)
    (store : UserStore) (username password : String) : AuthOutcome :=
  match utf8_encode_args [.backendInstance, .str username, .str password] with
  | .error e => (.error e, [])
  | .ok _ => radiusBackendAuthBody st send store username password

/-- RADIUSRealmBackend.get_server (lines 177-178): it evaluates
self._get_server_from_settings(). RADIUSRealmBackend inherits object, not
RADIUSBackend, so the lookup over RADIUSRealmBackend.methodNames fails and
the call raises AttributeError; the then-branch (unreachable) stands for
what the named base-class method computes. -/
def RADIUSRealmBackend.get_server (st : Settings) (_realm : String) :
    Except PyExc Server :=
  if RADIUSRealmBackend.methodNames.contains "_get_server_from_settings" then
    .ok (_get_server_from_settings st)
  else
    .error .attributeError

/-- Python truthiness of the realm value at line 189 (`if not realm`):
None and the empty string are falsy, any other string is truthy. -/
def realmTruthy : Option (List Char) → Bool
  | none => false
  | some [] => false
  | some (_ :: _) => true

/-- Body of RADIUSRealmBackend.authenticate (lines 186-198), before the
decorator: parse the username (line 187), return None when the realm is
falsy (lines 189-190, no packet built, no server contacted), else call
get_server (line 192), which raises AttributeError (see
RADIUSRealmBackend.get_server). The arm after a successful get_server is
unreachable; it embeds lines 193-198: _radius_auth on the STRIPPED user
part, and on success get_django_user on the FULL username (those two
lookups, self._radius_auth and self.get_django_user, would also raise
AttributeError on this class; the base-class code they name is used for
the unreachable arm). -/
def radiusRealmAuthBody (st : Settings) (send : SendBehavior)
    (store : UserStore) (username password : String) : AuthOutcome :=
  let pr := _parse_username username.toList
  if realmTruthy pr.2 then
    match RADIUSRealmBackend.get_server st ((pr.2.getD []).asString) with
    | .error e => (.error e, [])
    | .ok server =>
      let req : AuthRequest :=
        { code := AccessRequest, server := server,
          userName := pr.1.asString, password := password }
      match _perform_radius_auth (send req) with
      | .error e => (.error e, [req])
      | .ok true =>
        let gu := get_django_user store username (some password)
        (.ok (some gu.1, gu.2), [req])
      | .ok false => (.ok (none, store), [req])
  else
    (.ok (none, store), [])

/-- RADIUSRealmBackend.authenticate (lines 180-198) as callers call it:
the utf8_encode_args decorator runs over [self, username, password] first,
exactly as for RADIUSBackend.authenticate. -/
def RADIUSRealmBackend.authenticate (st : Settings) (send : SendBehavior)
    (store : UserStore) (username password : String) : AuthOutcome :=
  match utf8_encode_args [.backendInstance, .str username, .str password] with
  | .error e => (.error e, [])
  | .ok _ => radiusRealmAuthBody st send store username password

/-- A concrete settings value used by the closed theorems below. -/
def exampleSettings : Settings :=
  { radius_server := "radius.example.org", radius_port := 1812,
    radius_secret := "s3cret" }

/-- A network that answers every request with Access-Accept. -/
def sendAccept : SendBehavior := fun _ => .reply AccessAccept

/-- A network that answers every request with Access-Reject. -/
def sendReject : SendBehavior := fun _ => .reply AccessReject

example : RADIUSBackend.authenticate exampleSettings sendAccept [] "alice" "pw"
    = (.error .attributeError, []) := rfl
example : RADIUSRealmBackend.authenticate exampleSettings sendAccept [] "bob" "pw"
    = (.error .attributeError, []) := rfl
example : radiusRealmAuthBody exampleSettings sendAccept [] "bob" "pw"
    = (.ok (none, []), []) := rfl
example : radiusRealmAuthBody exampleSettings sendAccept [] "bob@" "pw"
    = (.ok (none, []), []) := rfl
example : radiusRealmAuthBody exampleSettings sendAccept [] "bob@corp" "pw"
    = (.error .attributeError, []) := rfl
example : radiusBackendAuthBody exampleSettings sendAccept [] "alice" "pw"
    = (.error .attributeError, []) := rfl

example : _perform_radius_auth (.reply 2) = .ok true := rfl
example : _perform_radius_auth (.reply 3) = .ok false := rfl
example : _perform_radius_auth (.reply 11) = .ok false := rfl
example : _parse_username "bob@".toList = ("bob".toList, some []) := by decide
example : _parse_username "@a@b".toList = ("@a".toList, some "b".toList) := by decide
example : _parse_username "@b".toList = ("@b".toList, none) := by decide
example : _parse_username "bob".toList = ("bob".toList, none) := by decide

/-- Modelled from the spec: the zero-padding step of the RADIUS password
obfuscation run by pyrad Packet.PwCrypt, the external routine that line 47
calls; the spec (section 4.2) pads the password with zero bytes to the next
16-byte boundary. Bytes are Nat values below 256. -/
def pad16 (p : List Nat) : List Nat :=
  if p.length % 16 = 0 then p else p ++ List.replicate (16 - p.length % 16) 0

/-- Byte-wise XOR of two byte strings, truncated to the shorter one. -/
def xorBytes (a b : List Nat) : List Nat :=
  List.zipWith (fun x y => x ^^^ y) a b

/-- Split a byte string into consecutive 16-byte blocks (the last block is
shorter when the length is not a multiple of 16). -/
def toBlocks16 (l : List Nat) : List (List Nat) :=
  if h : l = [] then []
  else l.take 16 :: toBlocks16 (l.drop 16)
termination_by l.length
decreasing_by
  simp only [List.length_drop]
  have hl : 0 < l.length := List.length_pos.mpr h
  omega

/-- Modelled from the spec: the block chain of the obfuscation, section 4.2:
for each 16-byte block p_i, c_i = p_i XOR MD5(secret concat c_(i-1)), with
the request authenticator in place of c_(i-1) for the first block. MD5
itself is external and is passed in as a function. -/
def pwCryptChain (md5 : List Nat → List Nat) (secret : List Nat) :
    List Nat → List (List Nat) → List (List Nat)
  | _, [] => []
  | prev, p :: rest =>
    xorBytes p (md5 (secret ++ prev)) ::
      pwCryptChain md5 secret (xorBytes p (md5 (secret ++ prev))) rest

/-- Modelled from the spec: the whole obfuscation of pyrad Packet.PwCrypt as
line 47 uses it: pad the password, split into blocks, run the XOR chain
keyed by the secret and the authenticator, and concatenate. -/
def PwCrypt (md5 : List Nat → List Nat)
    (secret authenticator password : List Nat) : List Nat :=
  (pwCryptChain md5 secret authenticator (toBlocks16 (pad16 password))).flatten

/-- Modelled from the spec: the inverse transform the claim describes:
block-wise XOR of the ciphertext with MD5(secret concat
previous-ciphertext-block-or-authenticator). -/
def pwDecryptChain (md5 : List Nat → List Nat) (secret : List Nat) :
    List Nat → List (List Nat) → List (List Nat)
  | _, [] => []
  | prev, c :: rest =>
    xorBytes c (md5 (secret ++ prev)) :: pwDecryptChain md5 secret c rest

/-- Modelled from the spec: the inverse transform applied to a whole
ciphertext. -/
def PwDecrypt (md5 : List Nat → List Nat)
    (secret authenticator ciphertext : List Nat) : List Nat :=
  (pwDecryptChain md5 secret authenticator (toBlocks16 ciphertext)).flatten

theorem xorBytes_cancel (a : List Nat) : ∀ b : List Nat, a.length ≤ b.length →
    xorBytes (xorBytes a b) b = a := by
  induction a with
  | nil => intro b _; rfl
  | cons x a ih =>
    intro b h
    cases b with
    | nil => simp at h
    | cons y b =>
      simp only [List.length_cons, Nat.succ_le_succ_iff] at h
      simp only [xorBytes, List.zipWith_cons_cons, Nat.xor_cancel_right,
        List.cons.injEq]
      exact ⟨trivial, ih b h⟩

theorem xorBytes_length (a b : List Nat) (h : b.length = 16)
    (ha : a.length ≤ 16) : (xorBytes a b).length = a.length := by
  simp only [xorBytes, List.length_zipWith, h]
  omega

theorem pwChain_roundtrip (md5 : List Nat → List Nat) (secret : List Nat)
    (hmd5 : ∀ x, (md5 x).length = 16) :
    ∀ (bs : List (List Nat)) (prev : List Nat),
      (∀ b ∈ bs, b.length ≤ 16) →
      pwDecryptChain md5 secret prev (pwCryptChain md5 secret prev bs) = bs := by
  intro bs
  induction bs with
  | nil => intro prev _; rfl
  | cons p rest ih =>
    intro prev hlen
    simp only [pwCryptChain, pwDecryptChain]
    have hx : xorBytes (xorBytes p (md5 (secret ++ prev))) (md5 (secret ++ prev)) = p := by
      refine xorBytes_cancel p _ ?_
      rw [hmd5]
      exact hlen p (by simp)
    rw [hx]
    exact congrArg (List.cons p)
      (ih _ (fun b hb => hlen b (List.mem_cons_of_mem _ hb)))

theorem pwCryptChain_len (md5 : List Nat → List Nat) (secret : List Nat)
    (hmd5 : ∀ x, (md5 x).length = 16) :
    ∀ (bs : List (List Nat)) (prev : List Nat),
      (∀ b ∈ bs, b.length = 16) →
      ∀ c ∈ pwCryptChain md5 secret prev bs, c.length = 16 := by
  intro bs
  induction bs with
  | nil => intro prev _ c hc; simp [pwCryptChain] at hc
  | cons p rest ih =>
    intro prev hlen c hc
    simp only [pwCryptChain, List.mem_cons] at hc
    rcases hc with rfl | hc
    · have hp : p.length = 16 := hlen p (by simp)
      rw [xorBytes_length p _ (hmd5 _) (le_of_eq hp)]
      exact hp
    · exact ih _ (fun b hb => hlen b (List.mem_cons_of_mem _ hb)) c hc

theorem toBlocks16_of_all16 : ∀ (bs : List (List Nat)),
    (∀ b ∈ bs, b.length = 16) → toBlocks16 bs.flatten = bs := by
  intro bs
  induction bs with
  | nil => intro _; rw [toBlocks16]; simp
  | cons b rest ih =>
    intro h
    have hb : b.length = 16 := h b (by simp)
    have hbne : b ++ rest.flatten ≠ [] := by
      intro he
      have : b = [] := List.append_eq_nil.mp he |>.1
      simp [this] at hb
    rw [List.flatten_cons, toBlocks16, dif_neg hbne]
    have htake : (b ++ rest.flatten).take 16 = b := by
      rw [← hb]
      exact List.take_left b rest.flatten
    have hdrop : (b ++ rest.flatten).drop 16 = rest.flatten := by
      rw [← hb]
      exact List.drop_left b rest.flatten
    rw [htake, hdrop, ih (fun x hx => h x (List.mem_cons_of_mem _ hx))]

theorem flatten_toBlocks16 : ∀ (n : Nat) (l : List Nat), l.length = n →
    (toBlocks16 l).flatten = l := by
  intro n
  induction n using Nat.strong_induction_on with
  | _ n ih =>
    intro l hn
    rw [toBlocks16]
    by_cases h : l = []
    · rw [dif_pos h]; simp [h]
    · rw [dif_neg h, List.flatten_cons]
      have hl : 0 < l.length := List.length_pos.mpr h
      rw [ih (l.drop 16).length (by simp only [List.length_drop]; omega)
        _ rfl]
      exact List.take_append_drop 16 l

theorem toBlocks16_len : ∀ (n : Nat) (l : List Nat), l.length = n →
    l.length % 16 = 0 → ∀ b ∈ toBlocks16 l, b.length = 16 := by
  intro n
  induction n using Nat.strong_induction_on with
  | _ n ih =>
    intro l hn hmod b hb
    rw [toBlocks16] at hb
    by_cases h : l = []
    · rw [dif_pos h] at hb; simp at hb
    · rw [dif_neg h] at hb
      have hl : 0 < l.length := List.length_pos.mpr h
      have h16 : 16 ≤ l.length := by omega
      rcases List.mem_cons.mp hb with rfl | hb2
      · simp only [List.length_take]
        omega
      · refine ih (l.drop 16).length ?_ _ rfl ?_ b hb2
        · simp only [List.length_drop]; omega
        · simp only [List.length_drop]; omega

theorem pad16_len_mod (p : List Nat) : (pad16 p).length % 16 = 0 := by
  unfold pad16
  by_cases h : p.length % 16 = 0
  · simp [h]
  · simp only [if_neg h, List.length_append, List.length_replicate]
    omega

example : pad16 [7, 7, 7] = [7, 7, 7] ++ List.replicate 13 0 := by decide

theorem rpartition_not_mem (sep : Char) : ∀ s : List Char, sep ∉ s →
    rpartition sep s = ([], [], s) := by
  intro s
  induction s with
  | nil => intro _; rfl
  | cons c rest ih =>
    intro h
    have hc : ¬(c = sep) := fun e => h (by simp [e])
    have hrest : sep ∉ rest := fun m => h (List.mem_cons_of_mem _ m)
    simp only [rpartition, ih hrest]
    simp [hc]

theorem rpartition_last (sep : Char) (b : List Char) (hb : sep ∉ b) :
    ∀ a : List Char, rpartition sep (a ++ sep :: b) = (a, [sep], b) := by
  intro a
  induction a with
  | nil =>
    simp only [List.nil_append, rpartition, rpartition_not_mem sep b hb]
    simp
  | cons c a ih =>
    simp only [List.cons_append, rpartition, List.append_eq]
    rw [ih]
    simp

theorem findUser_saveUser (store : UserStore) (u : DjangoUser) :
    findUser (saveUser store u) u.username = some u := by
  induction store with
  | nil => simp [saveUser, findUser]
  | cons v rest ih =>
    by_cases h : v.username == u.username
    · simp [saveUser, h, findUser]
    · simp only [saveUser, h, if_neg, Bool.false_eq_true, ite_false]
      simpa [findUser, h] using ih

theorem findUser_username (store : UserStore) (n : String) (u : DjangoUser)
    (h : findUser store n = some u) : u.username = n := by
  simp only [findUser] at h
  have hb := List.find?_some h
  exact eq_of_beq hb

/-- A concrete 16-byte hash standing in for MD5 in the closed witness. -/
def hashRange16 : List Nat → List Nat := fun _ => List.range 16

/-- C1: the claim says authenticate on either backend always returns a
result value and never lets an exception escape for a syntactically valid
username/password. The code violates it: the utf8_encode_args decorator
(line 21) encodes every positional argument, the bound instance included,
and backend instances have no encode attribute, so every call raises
AttributeError (direct mode would also fail at line 135, which names the
undefined get_server_from_settings). -/
theorem authenticate_raises_attributeError :
    RADIUSBackend.authenticate exampleSettings sendAccept [] "alice" "pw"
      = (.error .attributeError, [])
    ∧ RADIUSRealmBackend.authenticate exampleSettings sendAccept [] "alice@corp" "pw"
      = (.error .attributeError, []) := ⟨rfl, rfl⟩

/-- C2: the reply classification of _perform_radius_auth does hold (True
exactly for AccessAccept; AccessReject and every other code give False),
but the second half of the claim fails: authenticate never reaches
_perform_radius_auth, raising AttributeError even when the server would
accept, so it never returns an identity handle. -/
theorem perform_radius_auth_iff_accept :
    (∀ code : Nat,
      _perform_radius_auth (.reply code) = .ok true ↔ code = AccessAccept)
    ∧ RADIUSBackend.authenticate exampleSettings sendAccept [] "bob" "pw"
      = (.error .attributeError, []) := by
  constructor
  · intro code
    constructor
    · intro h
      by_cases h3 : code = AccessReject
      · simp [_perform_radius_auth, h3] at h
      · by_cases h2 : code = AccessAccept
        · exact h2
        · simp [_perform_radius_auth, h3, h2] at h
    · intro h
      subst h
      rfl
  · rfl

/-- C3 counterexample: the claim says every username starting with the at
sign maps to (fullString, absent); but "@a@b" starts with the at sign and
_parse_username splits it at the LAST at sign into ("@a", "b"). -/
theorem parse_username_at_claim_false :
    _parse_username "@a@b".toList = ("@a".toList, some "b".toList)
    ∧ _parse_username "@a@b".toList ≠ ("@a@b".toList, none) := by
  exact ⟨by decide, by decide⟩

/-- C3 (amended): _parse_username splits at the last at sign: a username
with exactly one at sign and a non-empty prefix gives (prefix, suffix); a
username with no at sign gives (fullString, absent); and a username whose
portion before the LAST at sign is empty (it starts with the at sign and
has no other) gives (fullString, absent), not (empty, suffix). -/
theorem parse_username_spec :
    (∀ a b : List Char, REALM_SEPARATOR ∉ a → REALM_SEPARATOR ∉ b → a ≠ [] →
      _parse_username (a ++ REALM_SEPARATOR :: b) = (a, some b))
    ∧ (∀ s : List Char, REALM_SEPARATOR ∉ s → _parse_username s = (s, none))
    ∧ (∀ b : List Char, REALM_SEPARATOR ∉ b →
      _parse_username (REALM_SEPARATOR :: b)
        = (REALM_SEPARATOR :: b, none)) := by
  refine ⟨?_, ?_, ?_⟩
  · intro a b _ hb hne
    unfold _parse_username
    rw [rpartition_last REALM_SEPARATOR b hb a]
    simp [hne]
  · intro s hs
    unfold _parse_username
    rw [rpartition_not_mem REALM_SEPARATOR s hs]
    simp
  · intro b hb
    unfold _parse_username
    have h := rpartition_last REALM_SEPARATOR b hb []
    simp only [List.nil_append] at h
    rw [h]
    simp

/-- C3 witness: the three amended clauses at the concrete usernames "a@b",
"ab" and "@b". -/
theorem parse_username_spec_witness :
    _parse_username "a@b".toList = (['a'], some ['b'])
    ∧ _parse_username "ab".toList = ("ab".toList, none)
    ∧ _parse_username "@b".toList = ("@b".toList, none) :=
  ⟨parse_username_spec.1 ['a'] ['b'] (by decide) (by decide) (by decide),
   parse_username_spec.2.1 "ab".toList (by decide),
   parse_username_spec.2.2 ['b'] (by decide)⟩

/-- C4: for a realm-less username ("bob") the decorated realm-routed
authenticate raises AttributeError instead of returning the NotApplicable
outcome; the undecorated body (lines 186-198 without the decorator) does
return None without handing any packet to SendPacket, but that None is the
very value a denied attempt returns, so the outcome is not a distinct
result value. -/
theorem realm_no_realm_behavior :
    RADIUSRealmBackend.authenticate exampleSettings sendAccept [] "bob" "pw"
      = (.error .attributeError, [])
    ∧ radiusRealmAuthBody exampleSettings sendAccept [] "bob" "pw"
      = (.ok (none, []), []) := ⟨rfl, rfl⟩

/-- C5: a timeout or any other exception raised by SendPacket makes
_perform_radius_auth return False: network failures never yield True and
never escape as exceptions. -/
theorem perform_radius_auth_network_failures :
    ∀ e : PyExc, _perform_radius_auth (.raisesExc e) = .ok false := by
  intro e
  cases e <;> rfl

/-- C6: the claim says the default get_server ignores the realm and
returns the configured (host, port, secret) triple; but RADIUSRealmBackend
inherits object, not RADIUSBackend, so the self._get_server_from_settings()
call at line 178 raises AttributeError for every realm and settings. -/
theorem get_server_raises :
    ∀ (st : Settings) (realm : String),
      RADIUSRealmBackend.get_server st realm = .error .attributeError := by
  intro st realm
  rfl

/-- C7: the password obfuscation round-trips: for any 16-byte-output hash
in place of MD5, any secret and authenticator, and any password of length
1 to 128 bytes, applying the inverse block transform to the ciphertext of
PwCrypt recovers the zero-padded plaintext. -/
theorem PwCrypt_roundtrip (md5 : List Nat → List Nat)
    (secret authenticator password : List Nat)
    (hmd5 : ∀ x, (md5 x).length = 16)
    (_hlo : 1 ≤ password.length) (_hhi : password.length ≤ 128) :
    PwDecrypt md5 secret authenticator
      (PwCrypt md5 secret authenticator password) = pad16 password := by
  unfold PwCrypt PwDecrypt
  have hblocks : ∀ b ∈ toBlocks16 (pad16 password), b.length = 16 :=
    toBlocks16_len (pad16 password).length (pad16 password) rfl
      (pad16_len_mod password)
  have hcrypt : ∀ c ∈ pwCryptChain md5 secret authenticator
      (toBlocks16 (pad16 password)), c.length = 16 :=
    pwCryptChain_len md5 secret hmd5 _ _ hblocks
  rw [toBlocks16_of_all16 _ hcrypt,
    pwChain_roundtrip md5 secret hmd5 _ _ (fun b hb => le_of_eq (hblocks b hb)),
    flatten_toBlocks16 (pad16 password).length _ rfl]

/-- C7 witness: the round trip at a concrete hash, secret, authenticator
and 3-byte password. -/
theorem PwCrypt_roundtrip_witness :
    (∀ x, (hashRange16 x).length = 16)
    ∧ 1 ≤ ([9, 8, 7] : List Nat).length
    ∧ ([9, 8, 7] : List Nat).length ≤ 128
    ∧ PwDecrypt hashRange16 [1, 2] [3, 4]
        (PwCrypt hashRange16 [1, 2] [3, 4] [9, 8, 7]) = pad16 [9, 8, 7] :=
  ⟨fun x => by simp [hashRange16], by decide, by decide,
   PwCrypt_roundtrip hashRange16 [1, 2] [3, 4] [9, 8, 7]
     (fun x => by simp [hashRange16]) (by decide) (by decide)⟩

/-- C8: get_django_user returns the existing record for the username when
one exists and a fresh one otherwise; whenever a password is supplied the
returned record carries it (set_password) and is saved into the table,
regardless of which branch produced the record; with no password the
record is returned unchanged and nothing is saved. -/
theorem get_django_user_spec (store : UserStore) (username pw : String) :
    (findUser store username = none →
      get_django_user store username (some pw)
        = ({ username := username, password := some pw },
           saveUser store { username := username, password := some pw }))
    ∧ (∀ ex : DjangoUser, findUser store username = some ex →
      get_django_user store username (some pw)
        = ({ ex with password := some pw },
           saveUser store { ex with password := some pw }))
    ∧ (get_django_user store username (some pw)).1.password = some pw
    ∧ findUser (get_django_user store username (some pw)).2 username
        = some (get_django_user store username (some pw)).1
    ∧ get_django_user store username none
        = ((findUser store username).getD
            { username := username, password := none }, store) := by
  refine ⟨?_, ?_, ?_, ?_, ?_⟩
  · intro h
    simp [get_django_user, h]
  · intro ex h
    simp [get_django_user, h]
  · cases hf : findUser store username <;> simp [get_django_user, hf]
  · cases hf : findUser store username with
    | none =>
      simp only [get_django_user, hf]
      exact findUser_saveUser store { username := username, password := some pw }
    | some ex =>
      have hu : ex.username = username := findUser_username store username ex hf
      simp only [get_django_user, hf]
      rw [← hu]
      exact findUser_saveUser store { ex with password := some pw }
  · cases hf : findUser store username <;> simp [get_django_user, hf]

/-- C8 witness: a table holding only "bob"; get-or-create for "alice" with
password "pw" returns a fresh record carrying "pw" and appends it. -/
theorem get_django_user_spec_witness :
    findUser [{ username := "bob", password := none }] "alice" = none
    ∧ get_django_user [{ username := "bob", password := none }] "alice" (some "pw")
        = ({ username := "alice", password := some "pw" },
           [{ username := "bob", password := none },
            { username := "alice", password := some "pw" }]) := by
  refine ⟨by decide, ?_⟩
  rw [(get_django_user_spec [{ username := "bob", password := none }]
    "alice" "pw").1 (by decide)]
  decide

/-- C9: the claim says realm-routed authenticate for user@realm sends a
request whose User-Name is the stripped prefix and stores the identity
under the full string. The parse step does yield ("bob", "corp.example"),
but no request is ever built: the decorated call raises AttributeError at
the decorator, and even the undecorated body raises AttributeError inside
get_server (RADIUSRealmBackend inherits object, so
_get_server_from_settings, _radius_auth and get_django_user are all
undefined on it) with no packet handed to the network. -/
theorem realm_stripped_username_behavior :
    _parse_username "bob@corp.example".toList
      = ("bob".toList, some "corp.example".toList)
    ∧ RADIUSRealmBackend.authenticate exampleSettings sendAccept []
        "bob@corp.example" "pw" = (.error .attributeError, [])
    ∧ radiusRealmAuthBody exampleSettings sendAccept []
        "bob@corp.example" "pw" = (.error .attributeError, []) :=
  ⟨by decide, rfl, rfl⟩

/-- C10: _parse_username does map "bob@" to ("bob", "") and the
undecorated realm body treats the empty realm as absent, returning None
with no packet sent; but the decorated authenticate, which is what a
caller invokes, raises AttributeError instead of returning that
NotApplicable result. -/
theorem realm_empty_realm_spec :
    _parse_username "bob@".toList = ("bob".toList, some [])
    ∧ radiusRealmAuthBody exampleSettings sendAccept [] "bob@" "pw"
      = (.ok (none, []), [])
    ∧ RADIUSRealmBackend.authenticate exampleSettings sendAccept [] "bob@" "pw"
      = (.error .attributeError, []) :=
  ⟨by decide, rfl, rfl⟩
